import Mathlib

/-!
Shallow embedding of the Falcon BMS performance monitor
(src/falcon_bms_monitor.py).  Python floats are modelled as rationals,
Python lists as Lean lists, and the insertion-ordered score dictionary
with keys CPU, Memory, GPU, GPU_Memory and None as a five-field
structure together with the declaration-ordered label list.
-/

/-- Labels of the score dictionary, in Python insertion order:
CPU, Memory, GPU, GPU_Memory, None. -/
inductive Label where
  | CPU
  | Memory
  | GPU
  | GPU_Memory
  | None
deriving DecidableEq

/-- The score dictionary of `_analyze_bottleneck`: five entries, one per
label, in insertion order CPU, Memory, GPU, GPU_Memory, None. -/
structure Scores where
  CPU : ℚ
  Memory : ℚ
  GPU : ℚ
  GPU_Memory : ℚ
  None : ℚ
deriving DecidableEq

/-- Value stored for a label in the score dictionary. -/
def scoreOf (s : Scores) : Label → ℚ
  | Label.CPU => s.CPU
  | Label.Memory => s.Memory
  | Label.GPU => s.GPU
  | Label.GPU_Memory => s.GPU_Memory
  | Label.None => s.None

/-- Declaration (insertion) order of the labels. -/
def labelIdx : Label → ℕ
  | Label.CPU => 0
  | Label.Memory => 1
  | Label.GPU => 2
  | Label.GPU_Memory => 3
  | Label.None => 4

/-- The `SystemMetrics` dataclass.  `bottleneck` and `bottleneck_score`
are filled in after classification; the classifier itself never reads
them, while `_get_recommendations` reads `bottleneck`. -/
structure SystemMetrics where
  timestamp : ℚ
  cpu_percent : ℚ
  cpu_per_core : List ℚ
  memory_percent : ℚ
  memory_used_gb : ℚ
  memory_available_gb : ℚ
  gpu_utilization : ℚ
  gpu_memory_percent : ℚ
  gpu_memory_used_gb : ℚ
  gpu_temperature : ℚ
  falcon_bms_cpu : ℚ
  falcon_bms_memory_mb : ℚ
  bottleneck : String
  bottleneck_score : List (String × ℚ)
deriving DecidableEq

/-- Threshold dictionary from `PerformanceMonitor.__init__`. -/
def cpu_high : ℚ := 85
/-- Memory high threshold (default 85). -/
def memory_high : ℚ := 85
/-- GPU high threshold (default 90). -/
def gpu_high : ℚ := 90
/-- GPU memory high threshold (default 85). -/
def gpu_memory_high : ℚ := 85

/-- `max(metrics.cpu_per_core) if metrics.cpu_per_core else 0`:
maximum of the per-core list, 0 for the empty list. -/
def maxCoreUsage : List ℚ → ℚ
  | [] => 0
  | x :: xs => xs.foldl max x

/-- CPU bucket of `_analyze_bottleneck`: single-core tier (0.8 / 0.5 /
0.3), overall-CPU linear excess over 85 divided by 30, and the
Falcon-BMS process tier (0.4 / 0.2). -/
def cpuBucket (m : SystemMetrics) : ℚ :=
  let maxCore := maxCoreUsage m.cpu_per_core
  let tier : ℚ :=
    if maxCore > 85 then 8/10
    else if maxCore > 70 then 5/10
    else if maxCore > 60 then 3/10
    else 0
  let overall : ℚ :=
    if m.cpu_percent > cpu_high then (m.cpu_percent - cpu_high) / 30 else 0
  let falcon : ℚ :=
    if m.falcon_bms_cpu > 150 then 4/10
    else if m.falcon_bms_cpu > 100 then 2/10
    else 0
  tier + overall + falcon

/-- Memory bucket: linear excess over the 85 threshold divided by 15. -/
def memoryBucket (m : SystemMetrics) : ℚ :=
  if m.memory_percent > memory_high then (m.memory_percent - memory_high) / 15 else 0

/-- GPU bucket: only when the GPU is available, linear excess of
utilization over 90 divided by 10. -/
def gpuBucket (gpuAvailable : Bool) (m : SystemMetrics) : ℚ :=
  if gpuAvailable ∧ m.gpu_utilization > gpu_high then
    (m.gpu_utilization - gpu_high) / 10
  else 0

/-- GPU memory bucket: only when the GPU is available, linear excess of
GPU memory percent over 85 divided by 15. -/
def gpuMemoryBucket (gpuAvailable : Bool) (m : SystemMetrics) : ℚ :=
  if gpuAvailable ∧ m.gpu_memory_percent > gpu_memory_high then
    (m.gpu_memory_percent - gpu_memory_high) / 15
  else 0

/-- State of the score dictionary after the four resource buckets and
the None rule (`if max(scores.values()) < 0.3: scores['None'] = 1.0`)
but before normalization. -/
def rawScores (gpuAvailable : Bool) (m : SystemMetrics) : Scores :=
  let s : Scores :=
    { CPU := cpuBucket m
      Memory := memoryBucket m
      GPU := gpuBucket gpuAvailable m
      GPU_Memory := gpuMemoryBucket gpuAvailable m
      None := 0 }
  let maxScore := max s.CPU (max s.Memory (max s.GPU (max s.GPU_Memory s.None)))
  if maxScore < 3/10 then { s with None := 1 } else s

/-- `total_score = sum(scores.values())` at the normalization step. -/
def totalScore (gpuAvailable : Bool) (m : SystemMetrics) : ℚ :=
  let s := rawScores gpuAvailable m
  s.CPU + s.Memory + s.GPU + s.GPU_Memory + s.None

/-- The score dictionary after normalization: every value divided by the
total when the total is positive, unchanged otherwise. -/
def normScores (gpuAvailable : Bool) (m : SystemMetrics) : Scores :=
  let s := rawScores gpuAvailable m
  let t := totalScore gpuAvailable m
  if t > 0 then
    { CPU := s.CPU / t
      Memory := s.Memory / t
      GPU := s.GPU / t
      GPU_Memory := s.GPU_Memory / t
      None := s.None / t }
  else s

/-- Python `max(scores.items(), key=lambda x: x[1])[0]`: fold over the
items in insertion order, replacing the current best only on a strictly
greater value, so the first-declared label wins ties. -/
def pyArgmax (s : Scores) : Label :=
  [Label.Memory, Label.GPU, Label.GPU_Memory, Label.None].foldl
    (fun best l => if scoreOf s l > scoreOf s best then l else best) Label.CPU

/-- `_analyze_bottleneck`: returns the selected bottleneck label and the
normalized score dictionary. -/
def analyzeBottleneck (gpuAvailable : Bool) (m : SystemMetrics) : Label × Scores :=
  let s := normScores gpuAvailable m
  (pyArgmax s, s)

/-- Maximum of the four resource buckets together with the (still zero)
None entry, as computed by `max(scores.values())` before the None rule. -/
def maxRawBucket (gpuAvailable : Bool) (m : SystemMetrics) : ℚ :=
  max (cpuBucket m)
    (max (memoryBucket m)
      (max (gpuBucket gpuAvailable m) (max (gpuMemoryBucket gpuAvailable m) 0)))

/-- Specification-side first-declared argmax: the label attains the
maximal score and every label declared before it scores strictly less. -/
def isFirstArgmax (s : Scores) (l : Label) : Prop :=
  (∀ l2, scoreOf s l2 ≤ scoreOf s l) ∧
  (∀ l2, labelIdx l2 < labelIdx l → scoreOf s l2 < scoreOf s l)

/-- `deque(maxlen=cap).append`: append on the right, evict from the left
when the capacity is exceeded. -/
def pushHistory (cap : ℕ) (buf : List SystemMetrics) (m : SystemMetrics) :
    List SystemMetrics :=
  let b := buf ++ [m]
  b.drop (b.length - cap)

/-- The effect of the monitor loop pushing every snapshot of `l`, in
order, into an initially empty history deque of capacity `cap`. -/
def pushAll (cap : ℕ) (l : List SystemMetrics) : List SystemMetrics :=
  l.foldl (pushHistory cap) []

/-- Window-selection step of `get_bottleneck_analysis`: an error result
when the history is empty, otherwise the snapshots with timestamp at or
after the cutoff, falling back to the single latest snapshot when that
filter is empty. -/
def recentMetrics (history : List SystemMetrics) (cutoff : ℚ) :
    Except String (List SystemMetrics) :=
  match history.getLast? with
  | Option.none => Except.error "No metrics data available"
  | Option.some last =>
    let recent := history.filter (fun m => cutoff ≤ m.timestamp)
    Except.ok (if recent.isEmpty then [last] else recent)

/-- `_get_recommendations`: branches on the snapshot field `bottleneck`
and on the maximum single-core usage; the `:.0f` format of the Python
f-strings is modelled by rounding to the nearest integer. -/
def getRecommendations (m : SystemMetrics) : List String :=
  let maxCore := maxCoreUsage m.cpu_per_core
  if m.bottleneck = "CPU" then
    if maxCore > 80 then
      ["Single-core bottleneck detected (Core at " ++ toString (round maxCore) ++ "%)",
       "Falcon BMS is limited by single-threaded performance",
       "Consider overclocking your CPU for better single-core performance",
       "Lower CPU-intensive settings: AI traffic, ground objects, weather complexity"]
    else
      ["CPU bottleneck detected - reduce CPU-intensive settings",
       "Close unnecessary background applications",
       "Lower AI traffic and ground object density",
       "Consider upgrading to a faster CPU"]
  else if m.bottleneck = "Memory" then
    ["Memory shortage detected - close unnecessary applications",
     "Consider adding more RAM to your system",
     "Lower texture quality in Falcon BMS settings",
     "Check for memory leaks in background processes"]
  else if m.bottleneck = "GPU" then
    ["GPU bottleneck - lower graphics settings in Falcon BMS",
     "Reduce anti-aliasing and post-processing effects",
     "Lower VR resolution or use dynamic resolution scaling",
     "Check GPU temperatures and fan curves"]
  else if m.bottleneck = "GPU_Memory" then
    ["GPU memory bottleneck - lower texture quality and resolution",
     "Reduce visual range and object density in VR",
     "Close other GPU-intensive applications",
     "Consider a GPU upgrade with more VRAM"]
  else
    ["System performance appears balanced. No immediate bottlenecks detected."] ++
      (if maxCore > 60 then
        ["Note: Highest core usage is " ++ toString (round maxCore) ++
          "% - monitor for single-core limits"]
      else [])

/-- A snapshot with the given timestamp and every metric zero, the
per-core list empty and the bottleneck fields at their pre-classification
defaults. -/
def mkSnap (t : ℚ) : SystemMetrics :=
  { timestamp := t, cpu_percent := 0, cpu_per_core := [], memory_percent := 0,
    memory_used_gb := 0, memory_available_gb := 0, gpu_utilization := 0,
    gpu_memory_percent := 0, gpu_memory_used_gb := 0, gpu_temperature := 0,
    falcon_bms_cpu := 0, falcon_bms_memory_mb := 0, bottleneck := "",
    bottleneck_score := [] }

/-- The snapshot of claim C7: maximum single-core usage 90, overall CPU
50, and every other input below its threshold. -/
def m7 : SystemMetrics :=
  { mkSnap 0 with cpu_percent := 50, cpu_per_core := [90] }

theorem pyArgmax_isFirstArgmax (s : Scores) : isFirstArgmax s (pyArgmax s) := by
  unfold pyArgmax isFirstArgmax
  simp only [List.foldl]
  split_ifs <;>
    refine ⟨fun l2 => ?_, fun l2 hlt => ?_⟩ <;>
      cases l2 <;> simp_all [scoreOf, labelIdx] <;> linarith


theorem cpuBucket_nonneg (m : SystemMetrics) : 0 ≤ cpuBucket m := by
  simp only [cpuBucket]
  refine add_nonneg (add_nonneg ?_ ?_) ?_
  · split_ifs <;> norm_num
  · split_ifs with h
    · simp only [cpu_high] at h ⊢
      linarith
    · exact le_refl 0
  · split_ifs <;> norm_num

theorem memoryBucket_nonneg (m : SystemMetrics) : 0 ≤ memoryBucket m := by
  simp only [memoryBucket]
  split_ifs with h
  · simp only [memory_high] at h ⊢
    linarith
  · exact le_refl 0

theorem gpuBucket_nonneg (g : Bool) (m : SystemMetrics) : 0 ≤ gpuBucket g m := by
  simp only [gpuBucket]
  split_ifs with h
  · simp only [gpu_high] at h ⊢
    linarith [h.2]
  · exact le_refl 0

theorem gpuMemoryBucket_nonneg (g : Bool) (m : SystemMetrics) :
    0 ≤ gpuMemoryBucket g m := by
  simp only [gpuMemoryBucket]
  split_ifs with h
  · simp only [gpu_memory_high] at h ⊢
    linarith [h.2]
  · exact le_refl 0

theorem rawScores_nonneg (g : Bool) (m : SystemMetrics) :
    0 ≤ (rawScores g m).CPU ∧ 0 ≤ (rawScores g m).Memory ∧
    0 ≤ (rawScores g m).GPU ∧ 0 ≤ (rawScores g m).GPU_Memory ∧
    0 ≤ (rawScores g m).None := by
  have h1 := cpuBucket_nonneg m
  have h2 := memoryBucket_nonneg m
  have h3 := gpuBucket_nonneg g m
  have h4 := gpuMemoryBucket_nonneg g m
  simp only [rawScores]
  split_ifs <;> exact ⟨h1, h2, h3, h4, by norm_num⟩


theorem totalScore_pos (g : Bool) (m : SystemMetrics) : 0 < totalScore g m := by
  have h1 := cpuBucket_nonneg m
  have h2 := memoryBucket_nonneg m
  have h3 := gpuBucket_nonneg g m
  have h4 := gpuMemoryBucket_nonneg g m
  simp only [totalScore, rawScores]
  split_ifs with h
  · dsimp only
    linarith
  · dsimp only at h ⊢
    simp only [not_lt, le_max_iff] at h
    rcases h with h | h | h | h | h <;> linarith

theorem rawScores_CPU (g : Bool) (m : SystemMetrics) :
    (rawScores g m).CPU = cpuBucket m := by
  simp only [rawScores]
  split_ifs <;> rfl

theorem rawScores_Memory (g : Bool) (m : SystemMetrics) :
    (rawScores g m).Memory = memoryBucket m := by
  simp only [rawScores]
  split_ifs <;> rfl

theorem rawScores_GPU (g : Bool) (m : SystemMetrics) :
    (rawScores g m).GPU = gpuBucket g m := by
  simp only [rawScores]
  split_ifs <;> rfl

theorem rawScores_GPU_Memory (g : Bool) (m : SystemMetrics) :
    (rawScores g m).GPU_Memory = gpuMemoryBucket g m := by
  simp only [rawScores]
  split_ifs <;> rfl

theorem rawScores_None (g : Bool) (m : SystemMetrics) :
    (rawScores g m).None = if maxRawBucket g m < 3/10 then 1 else 0 := by
  simp only [rawScores, maxRawBucket]
  split_ifs <;> rfl

theorem normScores_def (g : Bool) (m : SystemMetrics) :
    normScores g m =
      { CPU := (rawScores g m).CPU / totalScore g m
        Memory := (rawScores g m).Memory / totalScore g m
        GPU := (rawScores g m).GPU / totalScore g m
        GPU_Memory := (rawScores g m).GPU_Memory / totalScore g m
        None := (rawScores g m).None / totalScore g m } := by
  simp only [normScores]
  rw [if_pos (totalScore_pos g m)]

theorem normScores_sum_one (g : Bool) (m : SystemMetrics) :
    (normScores g m).CPU + (normScores g m).Memory + (normScores g m).GPU +
      (normScores g m).GPU_Memory + (normScores g m).None = 1 := by
  rw [normScores_def]
  have ht := totalScore_pos g m
  have htn : totalScore g m ≠ 0 := ne_of_gt ht
  dsimp only
  rw [div_add_div_same, div_add_div_same, div_add_div_same, div_add_div_same]
  rw [show (rawScores g m).CPU + (rawScores g m).Memory + (rawScores g m).GPU +
      (rawScores g m).GPU_Memory + (rawScores g m).None = totalScore g m from rfl]
  exact div_self htn

theorem normScores_bounds (g : Bool) (m : SystemMetrics) (l : Label) :
    0 ≤ scoreOf (normScores g m) l ∧ scoreOf (normScores g m) l ≤ 1 := by
  obtain ⟨h1, h2, h3, h4, h5⟩ := rawScores_nonneg g m
  have ht := totalScore_pos g m
  have htot : totalScore g m = (rawScores g m).CPU + (rawScores g m).Memory +
      (rawScores g m).GPU + (rawScores g m).GPU_Memory + (rawScores g m).None := rfl
  rw [normScores_def]
  cases l <;> dsimp only [scoreOf] <;>
    exact ⟨div_nonneg (by linarith) (le_of_lt ht),
      (div_le_one ht).mpr (by linarith)⟩

theorem pyArgmax_eq_of_strict (s : Scores) (l : Label)
    (h : ∀ l2, l2 ≠ l → scoreOf s l2 < scoreOf s l) : pyArgmax s = l := by
  obtain ⟨hmax, -⟩ := pyArgmax_isFirstArgmax s
  by_contra hne
  exact absurd (hmax l) (not_le.mpr (h _ hne))

/-- Claim C1: the selected bottleneck equals the first-declared label attaining
the maximum value of the returned score map. -/
theorem bottleneck_is_first_argmax (g : Bool) (m : SystemMetrics) :
    isFirstArgmax (analyzeBottleneck g m).2 (analyzeBottleneck g m).1 :=
  pyArgmax_isFirstArgmax (normScores g m)

/-- Claim C2: the returned score map assigns every one of the five labels a
value in the unit interval, and the five values sum to one. -/
theorem bottleneck_scores_normalized (g : Bool) (m : SystemMetrics) :
    (∀ l : Label, 0 ≤ scoreOf (analyzeBottleneck g m).2 l ∧
      scoreOf (analyzeBottleneck g m).2 l ≤ 1) ∧
    scoreOf (analyzeBottleneck g m).2 Label.CPU +
      scoreOf (analyzeBottleneck g m).2 Label.Memory +
      scoreOf (analyzeBottleneck g m).2 Label.GPU +
      scoreOf (analyzeBottleneck g m).2 Label.GPU_Memory +
      scoreOf (analyzeBottleneck g m).2 Label.None = 1 :=
  ⟨fun l => normScores_bounds g m l, normScores_sum_one g m⟩

/-- Claim C3: with the GPU unavailable the GPU and GPU_Memory buckets receive
no contribution and their normalized scores are zero, whatever the GPU
fields of the snapshot hold. -/
theorem gpu_unavailable_scores_zero (m : SystemMetrics) :
    gpuBucket false m = 0 ∧ gpuMemoryBucket false m = 0 ∧
    (analyzeBottleneck false m).2.GPU = 0 ∧
    (analyzeBottleneck false m).2.GPU_Memory = 0 := by
  have hg : gpuBucket false m = 0 := by simp [gpuBucket]
  have hgm : gpuMemoryBucket false m = 0 := by simp [gpuMemoryBucket]
  refine ⟨hg, hgm, ?_, ?_⟩
  · show (normScores false m).GPU = 0
    rw [normScores_def]
    dsimp only
    rw [rawScores_GPU, hg, zero_div]
  · show (normScores false m).GPU_Memory = 0
    rw [normScores_def]
    dsimp only
    rw [rawScores_GPU_Memory, hgm, zero_div]

/-- Claim C6: the total of the five buckets at the normalization step is
strictly positive, so the guard that would skip normalization is never
taken and every score is the raw bucket divided by the total. -/
theorem total_positive_normalization_always (g : Bool) (m : SystemMetrics) :
    0 < totalScore g m ∧
    normScores g m =
      { CPU := (rawScores g m).CPU / totalScore g m
        Memory := (rawScores g m).Memory / totalScore g m
        GPU := (rawScores g m).GPU / totalScore g m
        GPU_Memory := (rawScores g m).GPU_Memory / totalScore g m
        None := (rawScores g m).None / totalScore g m } :=
  ⟨totalScore_pos g m, normScores_def g m⟩

/-- Claim C7: on the snapshot with maximum single-core usage 90, overall CPU
50, target-process CPU 0 and everything else below threshold, the CPU
bucket is exactly 0.8, all other buckets are 0, the None rule does not
fire, and the classifier returns label CPU with normalized score 1. -/
theorem single_core_ninety_example :
    cpuBucket m7 = 8/10 ∧ memoryBucket m7 = 0 ∧ gpuBucket true m7 = 0 ∧
    gpuMemoryBucket true m7 = 0 ∧ (rawScores true m7).None = 0 ∧
    analyzeBottleneck true m7 = (Label.CPU, ⟨1, 0, 0, 0, 0⟩) := by
  refine ⟨?_, ?_, ?_, ?_, ?_, ?_⟩ <;>
    norm_num [analyzeBottleneck, normScores, totalScore, pyArgmax, scoreOf,
      rawScores, cpuBucket, memoryBucket, gpuBucket, gpuMemoryBucket,
      m7, mkSnap, maxCoreUsage, cpu_high, memory_high, gpu_high, gpu_memory_high]

theorem bucket_le_maxRawBucket (g : Bool) (m : SystemMetrics) :
    cpuBucket m ≤ maxRawBucket g m ∧ memoryBucket m ≤ maxRawBucket g m ∧
    gpuBucket g m ≤ maxRawBucket g m ∧ gpuMemoryBucket g m ≤ maxRawBucket g m := by
  unfold maxRawBucket
  refine ⟨le_max_left _ _, ?_, ?_, ?_⟩
  · exact le_max_of_le_right (le_max_left _ _)
  · exact le_max_of_le_right (le_max_of_le_right (le_max_left _ _))
  · exact le_max_of_le_right (le_max_of_le_right (le_max_of_le_right (le_max_left _ _)))

/-- Claim C9: the classifier selects None exactly when the maximum raw bucket
is below 0.3; in that case the raw None bucket is set to 1 while the
others keep their values, so the normalized None confidence is below 1
exactly when some other bucket is nonzero. -/
theorem none_label_characterization (g : Bool) (m : SystemMetrics) :
    ((analyzeBottleneck g m).1 = Label.None ↔ maxRawBucket g m < 3/10) ∧
    (maxRawBucket g m < 3/10 →
      (rawScores g m).None = 1 ∧
      (rawScores g m).CPU = cpuBucket m ∧
      (rawScores g m).Memory = memoryBucket m ∧
      (rawScores g m).GPU = gpuBucket g m ∧
      (rawScores g m).GPU_Memory = gpuMemoryBucket g m ∧
      ((analyzeBottleneck g m).2.None < 1 ↔
        (cpuBucket m ≠ 0 ∨ memoryBucket m ≠ 0 ∨
          gpuBucket g m ≠ 0 ∨ gpuMemoryBucket g m ≠ 0))) := by
  have ht := totalScore_pos g m
  have hc1 : (analyzeBottleneck g m).1 = pyArgmax (normScores g m) := rfl
  have hc2 : (analyzeBottleneck g m).2 = normScores g m := rfl
  have hN : (normScores g m).None = (rawScores g m).None / totalScore g m := by
    rw [normScores_def]
  have hCPU : (normScores g m).CPU = (rawScores g m).CPU / totalScore g m := by
    rw [normScores_def]
  have hMem : (normScores g m).Memory = (rawScores g m).Memory / totalScore g m := by
    rw [normScores_def]
  have hGPU : (normScores g m).GPU = (rawScores g m).GPU / totalScore g m := by
    rw [normScores_def]
  have hGM : (normScores g m).GPU_Memory =
      (rawScores g m).GPU_Memory / totalScore g m := by
    rw [normScores_def]
  constructor
  · rw [hc1]
    constructor
    · intro hlab
      by_contra hge
      rw [not_lt] at hge
      have hN0 : (rawScores g m).None = 0 := by
        rw [rawScores_None, if_neg (not_lt.mpr hge)]
      have hmax := (pyArgmax_isFirstArgmax (normScores g m)).1
      rw [hlab] at hmax
      have hnone0 : scoreOf (normScores g m) Label.None = 0 := by
        dsimp only [scoreOf]
        rw [hN, hN0, zero_div]
      have hdisj : 3/10 ≤ cpuBucket m ∨ 3/10 ≤ memoryBucket m ∨
          3/10 ≤ gpuBucket g m ∨ 3/10 ≤ gpuMemoryBucket g m := by
        unfold maxRawBucket at hge
        rcases le_max_iff.mp hge with h | h
        · exact Or.inl h
        rcases le_max_iff.mp h with h | h
        · exact Or.inr (Or.inl h)
        rcases le_max_iff.mp h with h | h
        · exact Or.inr (Or.inr (Or.inl h))
        rcases le_max_iff.mp h with h | h
        · exact Or.inr (Or.inr (Or.inr h))
        · exact absurd h (by norm_num)
      rcases hdisj with hb | hb | hb | hb
      · have hle := hmax Label.CPU
        rw [hnone0] at hle
        dsimp only [scoreOf] at hle
        rw [hCPU, rawScores_CPU] at hle
        exact absurd hle (not_le.mpr (div_pos (by linarith) ht))
      · have hle := hmax Label.Memory
        rw [hnone0] at hle
        dsimp only [scoreOf] at hle
        rw [hMem, rawScores_Memory] at hle
        exact absurd hle (not_le.mpr (div_pos (by linarith) ht))
      · have hle := hmax Label.GPU
        rw [hnone0] at hle
        dsimp only [scoreOf] at hle
        rw [hGPU, rawScores_GPU] at hle
        exact absurd hle (not_le.mpr (div_pos (by linarith) ht))
      · have hle := hmax Label.GPU_Memory
        rw [hnone0] at hle
        dsimp only [scoreOf] at hle
        rw [hGM, rawScores_GPU_Memory] at hle
        exact absurd hle (not_le.mpr (div_pos (by linarith) ht))
    · intro hm
      obtain ⟨hca, hma, hga, hgma⟩ := bucket_le_maxRawBucket g m
      have hN1 : (rawScores g m).None = 1 := by
        rw [rawScores_None, if_pos hm]
      apply pyArgmax_eq_of_strict
      intro l2 hne
      have hgoal : ∀ b : ℚ, b < 1 →
          b / totalScore g m < 1 / totalScore g m := by
        intro b hb
        rw [div_lt_div_iff₀ ht ht]
        nlinarith
      cases l2 with
      | CPU =>
        dsimp only [scoreOf]
        rw [hCPU, rawScores_CPU, hN, hN1]
        exact hgoal _ (by linarith)
      | Memory =>
        dsimp only [scoreOf]
        rw [hMem, rawScores_Memory, hN, hN1]
        exact hgoal _ (by linarith)
      | GPU =>
        dsimp only [scoreOf]
        rw [hGPU, rawScores_GPU, hN, hN1]
        exact hgoal _ (by linarith)
      | GPU_Memory =>
        dsimp only [scoreOf]
        rw [hGM, rawScores_GPU_Memory, hN, hN1]
        exact hgoal _ (by linarith)
      | None => exact absurd rfl hne
  · intro hm
    have hN1 : (rawScores g m).None = 1 := by
      rw [rawScores_None, if_pos hm]
    refine ⟨hN1, rawScores_CPU g m, rawScores_Memory g m, rawScores_GPU g m,
      rawScores_GPU_Memory g m, ?_⟩
    have htot : totalScore g m =
        cpuBucket m + memoryBucket m + gpuBucket g m + gpuMemoryBucket g m + 1 := by
      show (rawScores g m).CPU + (rawScores g m).Memory + (rawScores g m).GPU +
        (rawScores g m).GPU_Memory + (rawScores g m).None = _
      rw [rawScores_CPU, rawScores_Memory, rawScores_GPU, rawScores_GPU_Memory, hN1]
    rw [hc2, hN, hN1, div_lt_one ht, htot]
    have b1 := cpuBucket_nonneg m
    have b2 := memoryBucket_nonneg m
    have b3 := gpuBucket_nonneg g m
    have b4 := gpuMemoryBucket_nonneg g m
    constructor
    · intro hlt
      by_contra hall
      push_neg at hall
      obtain ⟨e1, e2, e3, e4⟩ := hall
      rw [e1, e2, e3, e4] at hlt
      norm_num at hlt
    · intro hsome
      rcases hsome with hx | hx | hx | hx
      · have := lt_of_le_of_ne b1 (Ne.symm hx)
        linarith
      · have := lt_of_le_of_ne b2 (Ne.symm hx)
        linarith
      · have := lt_of_le_of_ne b3 (Ne.symm hx)
        linarith
      · have := lt_of_le_of_ne b4 (Ne.symm hx)
        linarith

/-- Claim C4: the windowed query errors exactly on an empty history; on a
non-empty history it returns a non-empty list, equal to the single
latest snapshot whenever no stored snapshot reaches the cutoff. -/
theorem recent_metrics_fallback (history : List SystemMetrics) (cutoff : ℚ) :
    (recentMetrics history cutoff = Except.error "No metrics data available" ↔
      history = []) ∧
    (∀ l, recentMetrics history cutoff = Except.ok l →
      l ≠ [] ∧
      ((history.filter (fun m => cutoff ≤ m.timestamp)).isEmpty →
        ∃ last, history.getLast? = Option.some last ∧ l = [last])) := by
  unfold recentMetrics
  cases hl : history.getLast? with
  | none =>
    rw [List.getLast?_eq_none_iff] at hl
    subst hl
    refine ⟨by simp, fun l hok => by simp at hok⟩
  | some last =>
    have hne : history ≠ [] := by
      intro h
      subst h
      simp at hl
    constructor
    · simp only
      constructor
      · intro h
        exact absurd h (by simp)
      · intro h
        exact absurd h hne
    · intro l hok
      simp only [Except.ok.injEq] at hok
      subst hok
      constructor
      · split_ifs with hf
        · simp
        · simp only [List.isEmpty_iff] at hf
          exact hf
      · intro hf
        rw [if_pos hf]
        exact ⟨last, rfl, rfl⟩

theorem pushHistory_eq (cap : ℕ) (b : List SystemMetrics) (m : SystemMetrics) :
    pushHistory cap b m = (b ++ [m]).drop (b.length + 1 - cap) := by
  simp [pushHistory]

theorem pushHistory_length_le (cap : ℕ) (b : List SystemMetrics)
    (m : SystemMetrics) : (pushHistory cap b m).length ≤ cap := by
  rw [pushHistory_eq]
  simp only [List.length_drop, List.length_append, List.length_cons,
    List.length_nil]
  omega

theorem foldl_pushHistory (cap : ℕ) (l : List SystemMetrics) :
    ∀ b : List SystemMetrics, b.length ≤ cap →
      l.foldl (pushHistory cap) b = (b ++ l).drop ((b ++ l).length - cap) := by
  induction l with
  | nil =>
    intro b hb
    simp only [List.foldl_nil, List.append_nil]
    rw [Nat.sub_eq_zero_of_le hb, List.drop_zero]
  | cons x l ih =>
    intro b hb
    rw [List.foldl_cons, ih _ (pushHistory_length_le cap b x), pushHistory_eq]
    have hd : b.length + 1 - cap ≤ (b ++ [x]).length := by
      simp only [List.length_append, List.length_cons, List.length_nil]
      omega
    rw [← List.drop_append_of_le_length hd, List.drop_drop]
    have hL : (b ++ [x]) ++ l = b ++ x :: l := by
      simp
    rw [hL]
    congr 1
    simp only [List.length_drop, List.length_append, List.length_cons,
      List.length_nil]
    omega

/-- Claim C5: pushing capacity+1 snapshots into an initially empty history
leaves exactly capacity snapshots, namely all but the first pushed one,
in insertion order; a strictly increasing timestamp order is kept. -/
theorem history_eviction (cap : ℕ) (l : List SystemMetrics)
    (h : l.length = cap + 1) :
    pushAll cap l = l.tail ∧ (pushAll cap l).length = cap ∧
    (l.Pairwise (fun a b => a.timestamp < b.timestamp) →
      (pushAll cap l).Pairwise (fun a b => a.timestamp < b.timestamp)) := by
  have he : pushAll cap l = l.tail := by
    unfold pushAll
    rw [foldl_pushHistory cap l [] (by simp)]
    simp only [List.nil_append, h]
    rw [Nat.add_sub_cancel_left, List.drop_one]
  refine ⟨he, ?_, ?_⟩
  · rw [he, List.length_tail, h]
    rfl
  · intro hp
    rw [he]
    exact hp.sublist (List.tail_sublist l)

/-- Claim C8: the recommendation generator is a deterministic pure function of
the snapshot; it reads only the bottleneck label and the per-core list,
so snapshots agreeing on those fields receive identical recommendation
sequences, and identical snapshots always do. -/
theorem recommendations_deterministic (m1 m2 : SystemMetrics)
    (hb : m1.bottleneck = m2.bottleneck)
    (hc : m1.cpu_per_core = m2.cpu_per_core) :
    getRecommendations m1 = getRecommendations m2 := by
  unfold getRecommendations
  rw [hb, hc]

theorem getRecommendations_ne_nil (m : SystemMetrics) :
    getRecommendations m ≠ [] := by
  unfold getRecommendations
  dsimp only
  split_ifs <;> simp

/-- Claim C10: on a snapshot whose per-core list is empty the maximum
single-core usage is taken to be 0 and both the classifier and the
recommendation generator still return a result: the classifier a fully
normalized score map, the generator a non-empty list. -/
theorem empty_core_list_total (g : Bool) (m : SystemMetrics)
    (h : m.cpu_per_core = []) :
    maxCoreUsage m.cpu_per_core = 0 ∧
    scoreOf (analyzeBottleneck g m).2 Label.CPU +
      scoreOf (analyzeBottleneck g m).2 Label.Memory +
      scoreOf (analyzeBottleneck g m).2 Label.GPU +
      scoreOf (analyzeBottleneck g m).2 Label.GPU_Memory +
      scoreOf (analyzeBottleneck g m).2 Label.None = 1 ∧
    getRecommendations m ≠ [] := by
  refine ⟨?_, normScores_sum_one g m, getRecommendations_ne_nil m⟩
  rw [h]
  rfl

theorem recent_metrics_fallback_witness :
    recentMetrics [mkSnap 0] 5 = Except.ok [mkSnap 0] ∧
    ([mkSnap 0] : List SystemMetrics) ≠ [] := by
  have h := recent_metrics_fallback [mkSnap 0] 5
  have hok : recentMetrics [mkSnap 0] 5 = Except.ok [mkSnap 0] := by
    norm_num [recentMetrics, mkSnap]
  exact ⟨hok, (h.2 [mkSnap 0] hok).1⟩

theorem history_eviction_witness :
    pushAll 1 [mkSnap 0, mkSnap 1] = [mkSnap 1] ∧
    (pushAll 1 [mkSnap 0, mkSnap 1]).length = 1 ∧
    (pushAll 1 [mkSnap 0, mkSnap 1]).Pairwise
      (fun a b => a.timestamp < b.timestamp) := by
  have h := history_eviction 1 [mkSnap 0, mkSnap 1] (by simp)
  refine ⟨h.1, h.2.1, h.2.2 ?_⟩
  simp only [List.pairwise_cons, List.mem_singleton, List.not_mem_nil,
    List.Pairwise.nil, and_true, forall_eq]
  norm_num [mkSnap]

theorem recommendations_deterministic_witness :
    getRecommendations (mkSnap 0) = getRecommendations (mkSnap 1) :=
  recommendations_deterministic (mkSnap 0) (mkSnap 1) rfl rfl

theorem none_label_characterization_witness :
    (analyzeBottleneck false (mkSnap 0)).1 = Label.None ∧
    (rawScores false (mkSnap 0)).None = 1 := by
  have h := none_label_characterization false (mkSnap 0)
  have hm : maxRawBucket false (mkSnap 0) < 3/10 := by
    norm_num [maxRawBucket, cpuBucket, memoryBucket, gpuBucket, gpuMemoryBucket,
      mkSnap, maxCoreUsage, cpu_high, memory_high, gpu_high, gpu_memory_high]
  exact ⟨h.1.mpr hm, (h.2 hm).1⟩

theorem empty_core_list_total_witness :
    maxCoreUsage (mkSnap 0).cpu_per_core = 0 ∧
    getRecommendations (mkSnap 0) ≠ [] := by
  have h := empty_core_list_total true (mkSnap 0) rfl
  exact ⟨h.1, h.2.2⟩
